import Mathlib

/-!
Shallow embedding of the FreeTimerAlert countdown-timer engine.

Time spans (`datetime.timedelta` values, which Python stores exactly as an
integer number of microseconds) and monotonic-clock readings are modelled as
integers counting microseconds; the `seconds` argument of `Timer.tick` is an
integer number of seconds, as in the source, converted to microseconds where
the code wraps it in `timedelta(seconds=...)`.  Callbacks are modelled by an
identifier plus a flag saying
whether invoking the handler raises; invoking a list of callbacks produces an
ordered event log.  Thread state is modelled by explicit boolean flags
(`threadAlive` for `_thread is not None and _thread.is_alive()`,
`stopEventSet` for `_stop_event.is_set()`); joining a thread after signalling
stop is modelled by clearing `threadAlive`.  The background loops are modelled
as functions over a finite schedule of loop events, where an `elapse now` event
is one loop iteration observing monotonic time `now` and a `fault` event is an
unexpected exception raised inside the loop body (landing in the loop's
`except Exception` handler).
-/

set_option autoImplicit false

namespace FreeTimer

/-- Timer lifecycle states, from `TimerStatus` in `src/core/timer.py`. -/
inductive TimerStatus where
  | idle
  | running
  | paused
  | finished
  | stopped
deriving DecidableEq

/-- A registered callback handler: an identity plus whether invoking it raises. -/
structure Callback where
  id : Nat
  raises : Bool
deriving DecidableEq

/-- Observable events produced while invoking callbacks: the handler was
invoked, or an exception escaping a handler was caught and logged. -/
inductive CbEvent where
  | invoked (id : Nat)
  | errorLogged (id : Nat)
deriving DecidableEq

/-- State of one `Timer` object (`src/core/timer.py`): public fields
`duration`, `status`, `on_start`, `on_end` and private attributes
`_remaining`, `_thread` (modelled as its aliveness), `_stop_event`,
`_last_update_monotonic`. -/
structure Timer where
  duration : ℤ
  status : TimerStatus
  onStart : List Callback
  onEnd : List Callback
  remaining : ℤ
  threadAlive : Bool
  stopEventSet : Bool
  lastUpdateMonotonic : ℤ
deriving DecidableEq

/-- Model of `Timer.validate_positive`: the pydantic field validator on `duration`. -/
def Timer.validate_positive (duration : ℤ) : Except String ℤ :=
  if duration ≤ 0 then .error "duration must be > 0" else .ok duration

/-- Constructing `Timer(duration=...)`: runs the validator, then
`model_post_init` sets `_remaining = duration`; status defaults to IDLE,
no thread, stop event unset, anchor 0. -/
def Timer.make (onStart onEnd : List Callback) (duration : ℤ) :
    Except String Timer :=
  match Timer.validate_positive duration with
  | .error e => .error e
  | .ok d =>
    .ok { duration := d, status := .idle, onStart := onStart, onEnd := onEnd,
          remaining := d, threadAlive := false, stopEventSet := false,
          lastUpdateMonotonic := 0 }

/-- Invoking a single callback: the handler runs; if it raises, the exception
is caught by `Timer._notify` and logged. -/
def Timer.notifyOne (cb : Callback) : List CbEvent :=
  if cb.raises then [.invoked cb.id, .errorLogged cb.id] else [.invoked cb.id]

/-- Model of `Timer._notify`: run every callback in order, catching and logging any
exception a handler raises, so the loop always continues to the next one. -/
def Timer.notify (cbs : List Callback) : List CbEvent :=
  (cbs.map Timer.notifyOne).flatten

/-- Projection of a callback event to the id of an invoked handler. -/
def CbEvent.invokedId : CbEvent → Option Nat
  | .invoked i => some i
  | .errorLogged _ => none

/-- Model of `Timer.start`: returns early (no effect) when the thread is alive or the
status is RUNNING/PAUSED; otherwise clears the stop event, sets RUNNING,
anchors the monotonic timestamp to now, spawns the background thread and
invokes the `on_start` callbacks outside the lock. -/
def Timer.start (t : Timer) (now : ℤ) : Timer × List CbEvent :=
  if t.threadAlive then (t, [])
  else if t.status = .running ∨ t.status = .paused then (t, [])
  else
    ({ t with stopEventSet := false, status := .running,
              lastUpdateMonotonic := now, threadAlive := true },
     Timer.notify t.onStart)

/-- Model of `Timer.pause`: RUNNING becomes PAUSED; otherwise no effect. -/
def Timer.pause (t : Timer) : Timer :=
  if t.status = .running then { t with status := .paused } else t

/-- Model of `Timer.resume`: PAUSED becomes RUNNING and the monotonic anchor is reset
to now; otherwise no effect. -/
def Timer.resume (t : Timer) (now : ℤ) : Timer :=
  if t.status = .paused then
    { t with status := .running, lastUpdateMonotonic := now }
  else t

/-- Model of `Timer.stop`: warns and returns when no thread is alive; otherwise sets
the stop event, sets STOPPED and joins the thread (which exits on the event),
leaving the thread dead. -/
def Timer.stop (t : Timer) : Timer :=
  if t.threadAlive then
    { t with stopEventSet := true, status := .stopped, threadAlive := false }
  else t

/-- Model of `Timer.reset`: stops first when the thread is active, then restores
`remaining = duration`, status IDLE, anchor 0. -/
def Timer.reset (t : Timer) : Timer :=
  let t1 := if t.threadAlive then Timer.stop t else t
  { t1 with remaining := t1.duration, status := .idle,
            lastUpdateMonotonic := 0 }

/-- Model of `Timer.add_time`: a non-positive extra is logged and ignored; a positive
extra is added to `remaining`. -/
def Timer.add_time (t : Timer) (extra : ℤ) : Timer :=
  if extra ≤ 0 then t else { t with remaining := t.remaining + extra }

/-- Microseconds in one second: the conversion `timedelta(seconds=n)`. -/
def microsecondsPerSecond : ℤ := 1000000

/-- Model of `Timer.tick`: returns immediately when not RUNNING; otherwise subtracts
`timedelta(seconds=seconds)` from `remaining`; when the result is `≤ 0` it
clamps to 0, sets FINISHED and fires the `on_end` callbacks outside the
lock. -/
def Timer.tick (t : Timer) (seconds : ℤ) : Timer × List CbEvent :=
  if t.status ≠ .running then (t, [])
  else
    if t.remaining - seconds * microsecondsPerSecond ≤ 0 then
      ({ t with remaining := 0, status := .finished }, Timer.notify t.onEnd)
    else
      ({ t with remaining := t.remaining - seconds * microsecondsPerSecond },
       [])

/-- Model of `Timer._resolution_seconds`, default 0.1 seconds, in microseconds. -/
def resolutionSeconds : ℤ := 100000

/-- One event observed by a background loop: an iteration at monotonic time
`now`, or an unexpected exception inside the loop body. -/
inductive RunEvent where
  | elapse (now : ℤ)
  | fault
deriving DecidableEq

/-- One iteration of `Timer._run` while RUNNING: computes the delta since the
anchor; when it reaches the resolution, updates the anchor, subtracts the
delta, and on reaching zero clamps, sets FINISHED and fires `on_end`. -/
def Timer.runIter (t : Timer) (now : ℤ) : Timer × List CbEvent :=
  if resolutionSeconds ≤ now - t.lastUpdateMonotonic then
    if t.remaining - (now - t.lastUpdateMonotonic) ≤ 0 then
      ({ t with lastUpdateMonotonic := now, remaining := 0,
                status := .finished },
       Timer.notify t.onEnd)
    else
      ({ t with lastUpdateMonotonic := now,
                remaining := t.remaining - (now - t.lastUpdateMonotonic) }, [])
  else (t, [])

/-- Model of `Timer._run`: the timer's own background loop over a schedule of events.
The loop exits when the stop event is set; a RUNNING iteration performs
`runIter` and breaks once FINISHED; a non-RUNNING iteration just waits.  An
unexpected exception is caught by the `except` handler which logs it and
forces status STOPPED.  On every exit the thread terminates. -/
def Timer.run : Timer → List RunEvent → Timer × List CbEvent
  | t, [] => (t, [])
  | t, e :: es =>
    if t.stopEventSet then ({ t with threadAlive := false }, [])
    else
      match e with
      | .fault => ({ t with status := .stopped, threadAlive := false }, [])
      | .elapse now =>
        if t.status = .running then
          let p := Timer.runIter t now
          if p.1.status = .finished then
            ({ p.1 with threadAlive := false }, p.2)
          else
            let q := Timer.run p.1 es
            (q.1, p.2 ++ q.2)
        else Timer.run t es

/-- Model of `TimerService._run_timer`: the service-level background loop over a
schedule of events, given the (fixed) value of the service's per-name stop
event.  A RUNNING iteration calls `timer.tick(seconds=1)` and breaks once
FINISHED.  An unexpected exception is caught by the `except` handler, which
only logs it: the timer's status is left untouched. -/
def TimerService.runTimerLoop (stopEvt : Bool) :
    Timer → List RunEvent → Timer × List CbEvent
  | t, [] => (t, [])
  | t, e :: es =>
    if stopEvt then (t, [])
    else
      match e with
      | .fault => (t, [])
      | .elapse _ =>
        if t.status = .running then
          let p := Timer.tick t 1
          if p.1.status = .finished then p
          else
            let q := TimerService.runTimerLoop stopEvt p.1 es
            (q.1, p.2 ++ q.2)
        else TimerService.runTimerLoop stopEvt t es

/-! Catalog: `TimerService` of `src/services/timer_service.py`.  The Python
dicts `_timers`, `_threads`, `_stop_events` are modelled as insertion-ordered
association lists; a thread entry records whether that service-level
`_run_timer` thread is alive. -/

/-- Replace the value bound to `name`, or append a fresh binding. -/
def setAssoc {α : Type} (l : List (String × α)) (name : String) (v : α) :
    List (String × α) :=
  if l.any (fun p => p.1 = name) then
    l.map (fun p => if p.1 = name then (name, v) else p)
  else l ++ [(name, v)]

/-- Delete every binding of `name`. -/
def removeAssoc {α : Type} (l : List (String × α)) (name : String) :
    List (String × α) :=
  l.filter (fun p => p.1 ≠ name)

/-- Look up the value bound to `name`. -/
def getAssoc {α : Type} (l : List (String × α)) (name : String) : Option α :=
  (l.find? (fun p => p.1 = name)).map Prod.snd

/-- State of a `TimerService`: its `_timers`, `_threads` and `_stop_events`
dictionaries. -/
structure TimerService where
  timers : List (String × Timer)
  threads : List (String × Bool)
  stopEvents : List (String × Bool)
deriving DecidableEq

/-- The freshly constructed service: all three dictionaries empty. -/
def TimerService.empty : TimerService :=
  { timers := [], threads := [], stopEvents := [] }

/-- Errors raised by the service, all `ValueError`s in Python, distinguished
here by their message kind: duplicate-name conflict, unknown-name not-found,
still-active conflict on removal, or the Timer construction error propagated
out of `create_timer`. -/
inductive SvcError where
  | conflict (msg : String)
  | notFound (msg : String)
  | invalidValue (msg : String)
deriving DecidableEq

/-- Model of `TimerService.get_timer`: dictionary lookup, `None` when absent. -/
def TimerService.get_timer (s : TimerService) (name : String) : Option Timer :=
  getAssoc s.timers name

/-- Whether the service-level `_run_timer` thread for `name` is alive
(`name in self._threads and self._threads[name].is_alive()`). -/
def TimerService.threadAliveFor (s : TimerService) (name : String) : Bool :=
  (getAssoc s.threads name).getD false

/-- Model of `TimerService.create_timer`: raises a conflict when the name exists;
otherwise constructs the Timer (propagating the positive-duration validation
error), registers it and creates its stop event. -/
def TimerService.create_timer (s : TimerService) (name : String)
    (duration : ℤ) : Except SvcError (TimerService × Timer) :=
  if (s.get_timer name).isSome then
    .error (.conflict ("Timer " ++ name ++ " já existe"))
  else
    match Timer.make [] [] duration with
    | .error e => .error (.invalidValue e)
    | .ok t =>
      .ok ({ s with timers := s.timers ++ [(name, t)],
                    stopEvents := setAssoc s.stopEvents name false }, t)

/-- Model of `TimerService.list_timers`: returns the timers dictionary. -/
def TimerService.list_timers (s : TimerService) : List (String × Timer) :=
  s.timers

/-- Model of `TimerService.start_timer`: not-found error when the name is unknown;
warns and returns when the service thread is already alive; otherwise clears
the stop event, starts the Timer (which also spawns the Timer's own thread)
and spawns the `_run_timer` thread. -/
def TimerService.start_timer (s : TimerService) (name : String) (now : ℤ) :
    Except SvcError TimerService :=
  match s.get_timer name with
  | none => .error (.notFound ("Timer " ++ name ++ " não existe"))
  | some t =>
    if s.threadAliveFor name then .ok s
    else
      .ok { s with stopEvents := setAssoc s.stopEvents name false,
                   timers := setAssoc s.timers name (Timer.start t now).1,
                   threads := setAssoc s.threads name true }

/-- Model of `TimerService.stop_timer`: not-found error when the name is unknown;
warns and returns when the service thread is not alive; otherwise sets the
stop event, stops the Timer and joins the service thread. -/
def TimerService.stop_timer (s : TimerService) (name : String) :
    Except SvcError TimerService :=
  match s.get_timer name with
  | none => .error (.notFound ("Timer " ++ name ++ " não existe"))
  | some t =>
    if s.threadAliveFor name then
      .ok { s with stopEvents := setAssoc s.stopEvents name true,
                   timers := setAssoc s.timers name (Timer.stop t),
                   threads := setAssoc s.threads name false }
    else .ok s

/-- Model of `TimerService.pause_or_resume_timer`: not-found error when unknown;
resumes when PAUSED, otherwise pauses. -/
def TimerService.pause_or_resume_timer (s : TimerService) (name : String)
    (now : ℤ) : Except SvcError TimerService :=
  match s.get_timer name with
  | none => .error (.notFound ("Timer " ++ name ++ " não existe"))
  | some t =>
    if t.status = .paused then
      .ok { s with timers := setAssoc s.timers name (Timer.resume t now) }
    else
      .ok { s with timers := setAssoc s.timers name (Timer.pause t) }

/-- Model of `TimerService.reset_timer`: not-found error when unknown; stops first via
`stop_timer` when the service thread is alive, then resets the Timer. -/
def TimerService.reset_timer (s : TimerService) (name : String) :
    Except SvcError TimerService :=
  match s.get_timer name with
  | none => .error (.notFound ("Timer " ++ name ++ " não existe"))
  | some t =>
    if s.threadAliveFor name then
      let t1 := Timer.stop t
      .ok { s with stopEvents := setAssoc s.stopEvents name true,
                   timers := setAssoc s.timers name (Timer.reset t1),
                   threads := setAssoc s.threads name false }
    else
      .ok { s with timers := setAssoc s.timers name (Timer.reset t) }

/-- Model of `TimerService.add_time`: not-found error when unknown; otherwise delegates
to `Timer.add_time`. -/
def TimerService.add_time (s : TimerService) (name : String) (duration : ℤ) :
    Except SvcError TimerService :=
  match s.get_timer name with
  | none => .error (.notFound ("Timer " ++ name ++ " não existe"))
  | some t =>
    .ok { s with timers := setAssoc s.timers name (Timer.add_time t duration) }

/-- Modelled from the spec: `TimerService.remove_timer` is called by the
terminal and GUI interfaces and exercised by the test suite, but its
definition is not among the sources.  Per the spec, `remove(name)` fails with
a "still active" conflict error when the Timer is RUNNING or PAUSED, fails
with a not-found error for an unknown name, and otherwise deletes the catalog
entry. -/
def TimerService.remove_timer (s : TimerService) (name : String) :
    Except SvcError TimerService :=
  match s.get_timer name with
  | none => .error (.notFound ("Timer " ++ name ++ " does not exist"))
  | some t =>
    if t.status = .running ∨ t.status = .paused then
      .error (.conflict ("Timer " ++ name ++ " is still active"))
    else
      .ok { s with timers := removeAssoc s.timers name,
                   threads := removeAssoc s.threads name,
                   stopEvents := removeAssoc s.stopEvents name }

/-! Decidability of equality of operation results, for evaluating concrete
scenarios. -/

instance exceptDecEq {ε α : Type} [DecidableEq ε] [DecidableEq α] :
    DecidableEq (Except ε α)
  | .ok x, .ok y =>
    if h : x = y then .isTrue (congrArg Except.ok h)
    else .isFalse (fun hc => h (Except.ok.inj hc))
  | .error x, .error y =>
    if h : x = y then .isTrue (congrArg Except.error h)
    else .isFalse (fun hc => h (Except.error.inj hc))
  | .ok _, .error _ => .isFalse (fun hc => Except.noConfusion hc)
  | .error _, .ok _ => .isFalse (fun hc => Except.noConfusion hc)

/-! Helper lemmas shared by several claims. -/

theorem notify_cons (cb : Callback) (cbs : List Callback) :
    Timer.notify (cb :: cbs) = Timer.notifyOne cb ++ Timer.notify cbs := by
  simp [Timer.notify]

theorem notify_invokedIds (cbs : List Callback) :
    (Timer.notify cbs).filterMap CbEvent.invokedId = cbs.map Callback.id := by
  induction cbs with
  | nil => rfl
  | cons cb rest ih =>
    rw [notify_cons, List.filterMap_append, ih]
    by_cases h : cb.raises <;>
      simp [Timer.notifyOne, h, CbEvent.invokedId]

theorem notify_append (l1 l2 : List Callback) :
    Timer.notify (l1 ++ l2) = Timer.notify l1 ++ Timer.notify l2 := by
  simp [Timer.notify]

/-! Concrete states used when evaluating theorems on explicit inputs. -/

/-- The ten-second timer as constructed by
`Timer(duration=timedelta(seconds=10))`. -/
def exIdle10 : Timer :=
  { duration := 10000000, status := .idle, onStart := [], onEnd := [],
    remaining := 10000000, threadAlive := false, stopEventSet := false,
    lastUpdateMonotonic := 0 }

/-- The ten-unit timer right after `start()` at monotonic time 0. -/
def exRunning10 : Timer := (Timer.start exIdle10 0).1

/-- The ten-unit timer after `start()` then `stop()`. -/
def exStopped10 : Timer := Timer.stop exRunning10

/-! C4: tick semantics. -/

/-- C4: `Timer.tick(elapsed)` is a no-op (remaining, status and callbacks
unchanged) whenever the status is not RUNNING; while RUNNING it decrements
`remaining` by `elapsed`, and when the result is `≤ 0` it clamps `remaining`
to exactly 0, sets status FINISHED and fires the `on_end` callbacks in
insertion order. -/
theorem C4_tick_semantics (t : Timer) (s : ℤ) :
    (t.status ≠ .running → Timer.tick t s = (t, [])) ∧
    (t.status = .running → t.remaining - s * microsecondsPerSecond ≤ 0 →
      Timer.tick t s =
        ({ t with remaining := 0, status := .finished },
         Timer.notify t.onEnd) ∧
      (Timer.tick t s).2.filterMap CbEvent.invokedId =
        t.onEnd.map Callback.id) ∧
    (t.status = .running → 0 < t.remaining - s * microsecondsPerSecond →
      Timer.tick t s =
        ({ t with remaining := t.remaining - s * microsecondsPerSecond },
         [])) := by
  refine ⟨fun h => ?_, fun h hle => ?_, fun h hpos => ?_⟩
  · simp [Timer.tick, h]
  · constructor
    · simp [Timer.tick, h, hle]
    · simp [Timer.tick, h, hle, notify_invokedIds]
  · simp [Timer.tick, h, not_le.mpr hpos]

/-- Evaluation of C4 on explicit inputs: a PAUSED timer ignores `tick`, and
the RUNNING ten-unit timer finishes on `tick 12` (firing `on_end`) and
decrements on `tick 3`. -/
theorem C4_tick_semantics_witness :
    Timer.tick (Timer.pause exRunning10) 3 = (Timer.pause exRunning10, []) ∧
    Timer.tick exRunning10 12 =
      ({ exRunning10 with remaining := 0, status := .finished },
       Timer.notify exRunning10.onEnd) ∧
    Timer.tick exRunning10 3 =
      ({ exRunning10 with
           remaining := exRunning10.remaining - 3 * microsecondsPerSecond },
       []) :=
  ⟨(C4_tick_semantics (Timer.pause exRunning10) 3).1 (by decide),
   ((C4_tick_semantics exRunning10 12).2.1 (by decide) (by decide)).1,
   (C4_tick_semantics exRunning10 3).2.2 (by decide) (by decide)⟩

/-! C6: add_time semantics. -/

/-- C6: for every Timer in any status, `add_time(extra)` with `extra > 0`
increases `remaining` by exactly `extra` and changes nothing else; with
`extra ≤ 0` the call is rejected and the Timer is left unchanged. -/
theorem C6_add_time_semantics (t : Timer) (extra : ℤ) :
    (0 < extra →
      Timer.add_time t extra = { t with remaining := t.remaining + extra }) ∧
    (extra ≤ 0 → Timer.add_time t extra = t) := by
  constructor
  · intro h
    simp [Timer.add_time, not_le.mpr h]
  · intro h
    simp [Timer.add_time, h]

/-- Evaluation of C6 on explicit inputs: adding 5 to the running ten-unit
timer raises `remaining` to 15; adding −1 leaves it unchanged. -/
theorem C6_add_time_semantics_witness :
    Timer.add_time exRunning10 5 =
      { exRunning10 with remaining := exRunning10.remaining + 5 } ∧
    Timer.add_time exRunning10 (-1) = exRunning10 :=
  ⟨(C6_add_time_semantics exRunning10 5).1 (by norm_num),
   (C6_add_time_semantics exRunning10 (-1)).2 (by norm_num)⟩

/-! C7: reset semantics. -/

/-- C7: `Timer.reset()` always succeeds from every state: afterwards
`remaining = duration` (any added extra time is discarded), status is IDLE,
and no background thread is left alive. -/
theorem C7_reset_semantics (t : Timer) :
    (Timer.reset t).remaining = t.duration ∧
    (Timer.reset t).status = .idle ∧
    (Timer.reset t).threadAlive = false := by
  by_cases h : t.threadAlive <;> simp [Timer.reset, Timer.stop, h]

/-! C10: negative tick extends the countdown. -/

/-- C10: `Timer.tick` performs no sign check on its seconds argument: for a
RUNNING timer with positive remaining time and any integer `n > 0`,
`tick(seconds = -n)` is accepted and increases `remaining` by exactly `n`,
leaving the status RUNNING and firing no callbacks. -/
theorem C10_negative_tick (t : Timer) (n : ℤ) (hrun : t.status = .running)
    (hn : 0 < n) (hr : 0 < t.remaining) :
    (Timer.tick t (-n)).1.remaining =
      t.remaining + n * microsecondsPerSecond ∧
    (Timer.tick t (-n)).1.status = .running ∧
    (Timer.tick t (-n)).2 = [] := by
  have hscale : 0 < n * microsecondsPerSecond := by
    have : (0 : ℤ) < microsecondsPerSecond := by norm_num [microsecondsPerSecond]
    positivity
  have hpos : 0 < t.remaining - (-n) * microsecondsPerSecond := by nlinarith
  unfold Timer.tick
  rw [if_neg (by simp [hrun]), if_neg (not_le.mpr hpos)]
  refine ⟨?_, hrun, rfl⟩
  show t.remaining - -n * microsecondsPerSecond =
    t.remaining + n * microsecondsPerSecond
  ring

/-- Evaluation of C10 on explicit input: `tick (-3)` on the running ten-unit
timer raises `remaining` to 13 and keeps it RUNNING. -/
theorem C10_negative_tick_witness :
    (Timer.tick exRunning10 (-3)).1.remaining =
      exRunning10.remaining + 3 * microsecondsPerSecond ∧
    (Timer.tick exRunning10 (-3)).1.status = .running ∧
    (Timer.tick exRunning10 (-3)).2 = [] :=
  C10_negative_tick exRunning10 3 (by decide) (by decide) (by decide)

/-! C2: start semantics. -/

/-- C2 (amended): `Timer.start()` is a no-op (state and callbacks unchanged)
whenever the background thread is alive or the status is RUNNING or PAUSED;
when no thread is alive and the status is IDLE, FINISHED or STOPPED it sets
status RUNNING, re-anchors the monotonic timestamp to now, clears the stop
event, spawns the thread and invokes the `on_start` callbacks; consequently
the status becomes RUNNING exactly once even when `start()` is called twice
in a row. -/
theorem C2_start_semantics (t : Timer) (now now2 : ℤ) :
    (t.threadAlive = true → Timer.start t now = (t, [])) ∧
    (t.status = .running ∨ t.status = .paused →
      Timer.start t now = (t, [])) ∧
    (t.threadAlive = false →
      t.status = .idle ∨ t.status = .finished ∨ t.status = .stopped →
      Timer.start t now =
        ({ t with stopEventSet := false, status := .running,
                  lastUpdateMonotonic := now, threadAlive := true },
         Timer.notify t.onStart)) ∧
    Timer.start (Timer.start t now).1 now2 = ((Timer.start t now).1, []) := by
  refine ⟨fun hA => ?_, fun hS => ?_, fun hA hS => ?_, ?_⟩
  · simp [Timer.start, hA]
  · by_cases hA : t.threadAlive <;> simp [Timer.start, hA, hS]
  · have hne : ¬(t.status = .running ∨ t.status = .paused) := by
      rcases hS with h | h | h <;> simp [h]
    simp [Timer.start, hA, hne]
  · by_cases hA : t.threadAlive
    · simp [Timer.start, hA]
    · by_cases hS : t.status = .running ∨ t.status = .paused
      · simp [Timer.start, hA, hS]
      · simp [Timer.start, hA, hS]

/-- The one-second timer as constructed by
`Timer(duration=timedelta(seconds=1))`. -/
def exIdle1 : Timer :=
  { duration := 1000000, status := .idle, onStart := [], onEnd := [],
    remaining := 1000000, threadAlive := false, stopEventSet := false,
    lastUpdateMonotonic := 0 }

/-- The one-second timer after its background loop ran past the duration:
FINISHED, `remaining = 0`, thread dead. -/
def exFinished1 : Timer :=
  (Timer.run (Timer.start exIdle1 0).1 [RunEvent.elapse 2000000]).1

/-- C2 counterexample: the claim says `start()` has no effect from any state
other than IDLE, but on the reachable FINISHED state with a dead thread
(a started one-second timer whose loop ran past its duration) `start()` does
act: it sets the status back to RUNNING. -/
theorem C2_counterexample :
    exFinished1.status = .finished ∧
    (Timer.start exFinished1 3000000).1.status = .running ∧
    (Timer.start exFinished1 3000000).1 ≠ exFinished1 := by decide

/-- Evaluation of C2 on explicit inputs: the idle ten-second timer starts
(RUNNING, re-anchored, callbacks fired), and a second `start` right after is
a no-op. -/
theorem C2_start_semantics_witness :
    Timer.start exIdle10 0 =
      ({ exIdle10 with stopEventSet := false, status := .running,
                       lastUpdateMonotonic := 0, threadAlive := true },
       Timer.notify exIdle10.onStart) ∧
    Timer.start (Timer.start exIdle10 0).1 5 = ((Timer.start exIdle10 0).1, []) :=
  ⟨(C2_start_semantics exIdle10 0 5).2.2.1 (by decide) (by decide),
   (C2_start_semantics exIdle10 0 5).2.2.2⟩

/-! C3: background-loop error handling. -/

/-- C3 (amended): an unexpected exception inside `Timer._run` is caught and
logged and forces the Timer's status to STOPPED; an unexpected exception
inside `TimerService._run_timer` is caught and logged but leaves the Timer
entirely unchanged, so that loop variant does not force STOPPED. -/
theorem C3_loop_error_handling (t : Timer) (es : List RunEvent)
    (h : t.stopEventSet = false) :
    (Timer.run t (RunEvent.fault :: es)).1.status = .stopped ∧
    (TimerService.runTimerLoop false t (RunEvent.fault :: es)).1 = t := by
  constructor
  · simp [Timer.run, h]
  · simp [TimerService.runTimerLoop]

/-- C3 counterexample: the claim asserts that every background-loop variant
forces STOPPED after an unexpected error, but `TimerService._run_timer` run
on the RUNNING ten-second timer leaves it RUNNING after a fault. -/
theorem C3_counterexample :
    (TimerService.runTimerLoop false exRunning10 [RunEvent.fault]).1.status =
      .running ∧
    (TimerService.runTimerLoop false exRunning10 [RunEvent.fault]).1.status ≠
      .stopped := by decide

/-- Evaluation of C3 on explicit input: a fault in `Timer._run` on the
running ten-second timer yields STOPPED, while the same fault in
`TimerService._run_timer` leaves the timer untouched. -/
theorem C3_loop_error_handling_witness :
    (Timer.run exRunning10 [RunEvent.fault]).1.status = .stopped ∧
    (TimerService.runTimerLoop false exRunning10 [RunEvent.fault]).1 =
      exRunning10 :=
  C3_loop_error_handling exRunning10 [] (by decide)

/-! C9: callback isolation. -/

theorem tick_ignores_onEnd_raises (t : Timer) (l1 l2 : List Callback)
    (s : ℤ) :
    (Timer.tick { t with onEnd := l1 } s).1.status =
      (Timer.tick { t with onEnd := l2 } s).1.status ∧
    (Timer.tick { t with onEnd := l1 } s).1.remaining =
      (Timer.tick { t with onEnd := l2 } s).1.remaining := by
  by_cases h : t.status = .running
  · by_cases h2 : t.remaining - s * microsecondsPerSecond ≤ 0 <;>
      simp [Timer.tick, h, h2]
  · simp [Timer.tick, h]

/-- C9: a handler that raises during notification is caught and logged and
never propagated: every callback in the list is still invoked, in insertion
order, the raising handler's error is logged, and the Timer's status and
remaining time after a `tick`-driven `on_end` notification are the same as if
the handler had returned normally. -/
theorem C9_callback_isolation (t : Timer) (s : ℤ) (i : Nat)
    (pre post : List Callback) :
    (Timer.notify (pre ++ ⟨i, true⟩ :: post)).filterMap CbEvent.invokedId =
      pre.map Callback.id ++ i :: post.map Callback.id ∧
    CbEvent.errorLogged i ∈ Timer.notify (pre ++ ⟨i, true⟩ :: post) ∧
    (Timer.tick { t with onEnd := pre ++ ⟨i, true⟩ :: post } s).1.status =
      (Timer.tick { t with onEnd := pre ++ ⟨i, false⟩ :: post } s).1.status ∧
    (Timer.tick { t with onEnd := pre ++ ⟨i, true⟩ :: post } s).1.remaining =
      (Timer.tick { t with onEnd := pre ++ ⟨i, false⟩ :: post } s).1.remaining
    := by
  refine ⟨?_, ?_, ?_, ?_⟩
  · rw [notify_invokedIds]
    simp
  · rw [notify_append, notify_cons]
    simp [Timer.notifyOne]
  · exact (tick_ignores_onEnd_raises t _ _ s).1
  · exact (tick_ignores_onEnd_raises t _ _ s).2

/-! C5: invariants of reachable Timer states. -/

/-- Ghost-instrumented reachability: `Reach t e` holds when the Timer state
`t` can be produced by construction followed by public operations, where the
ghost value `e` accumulates the positive extras accepted by `add_time` since
construction or the last `reset`.  As in the amended claim, `tick` steps are
restricted to non-negative elapsed seconds. -/
inductive Reach : Timer → ℤ → Prop
  | create (onS onE : List Callback) (d : ℤ) (t : Timer)
      (h : Timer.make onS onE d = .ok t) : Reach t 0
  | start (t : Timer) (e now : ℤ) (h : Reach t e) :
      Reach (Timer.start t now).1 e
  | pause (t : Timer) (e : ℤ) (h : Reach t e) : Reach (Timer.pause t) e
  | resume (t : Timer) (e now : ℤ) (h : Reach t e) :
      Reach (Timer.resume t now) e
  | stop (t : Timer) (e : ℤ) (h : Reach t e) : Reach (Timer.stop t) e
  | tick (t : Timer) (e s : ℤ) (hs : 0 ≤ s) (h : Reach t e) :
      Reach (Timer.tick t s).1 e
  | reset (t : Timer) (e : ℤ) (h : Reach t e) : Reach (Timer.reset t) 0
  | add_time (t : Timer) (e x : ℤ) (h : Reach t e) :
      Reach (Timer.add_time t x) (e + max x 0)

theorem start_fields (t : Timer) (now : ℤ) :
    (Timer.start t now).1.duration = t.duration ∧
    (Timer.start t now).1.remaining = t.remaining := by
  by_cases hA : t.threadAlive <;>
    by_cases hS : t.status = .running ∨ t.status = .paused <;>
      simp [Timer.start, hA, hS]

theorem pause_fields (t : Timer) :
    (Timer.pause t).duration = t.duration ∧
    (Timer.pause t).remaining = t.remaining := by
  by_cases h : t.status = .running <;> simp [Timer.pause, h]

theorem resume_fields (t : Timer) (now : ℤ) :
    (Timer.resume t now).duration = t.duration ∧
    (Timer.resume t now).remaining = t.remaining := by
  by_cases h : t.status = .paused <;> simp [Timer.resume, h]

theorem stop_fields (t : Timer) :
    (Timer.stop t).duration = t.duration ∧
    (Timer.stop t).remaining = t.remaining := by
  by_cases h : t.threadAlive <;> simp [Timer.stop, h]

theorem reset_fields (t : Timer) :
    (Timer.reset t).duration = t.duration ∧
    (Timer.reset t).remaining = t.duration := by
  by_cases h : t.threadAlive <;> simp [Timer.reset, Timer.stop, h]

/-- C5 (amended): construction with a non-positive duration raises and no
Timer is created, and in every state reachable through the public operations
— with `tick` restricted to non-negative elapsed seconds, since a negative
`tick` can exceed the bound — the invariants `0 < duration` and
`0 ≤ remaining ≤ duration + (sum of positive extras added since the last
reset)` hold. -/
theorem C5_invariants :
    (∀ (onS onE : List Callback) (d : ℤ), d ≤ 0 →
      Timer.make onS onE d = .error "duration must be > 0") ∧
    ∀ (t : Timer) (e : ℤ), Reach t e →
      0 < t.duration ∧ 0 ≤ e ∧ 0 ≤ t.remaining ∧
        t.remaining ≤ t.duration + e := by
  constructor
  · intro onS onE d hd
    simp [Timer.make, Timer.validate_positive, hd]
  · intro t e h
    induction h with
    | create onS onE d t h =>
      by_cases hd : d ≤ 0
      · simp [Timer.make, Timer.validate_positive, hd] at h
      · simp [Timer.make, Timer.validate_positive, hd] at h
        rw [← h]
        refine ⟨?_, le_refl 0, ?_, ?_⟩
        · show 0 < d
          omega
        · show 0 ≤ d
          omega
        · show d ≤ d + 0
          omega
    | start t e now h ih =>
      rw [(start_fields t now).1, (start_fields t now).2]
      exact ih
    | pause t e h ih =>
      rw [(pause_fields t).1, (pause_fields t).2]
      exact ih
    | resume t e now h ih =>
      rw [(resume_fields t now).1, (resume_fields t now).2]
      exact ih
    | stop t e h ih =>
      rw [(stop_fields t).1, (stop_fields t).2]
      exact ih
    | tick t e s hs h ih =>
      obtain ⟨ihd, ihe, ihr0, ihr1⟩ := ih
      have hscale : 0 ≤ s * microsecondsPerSecond :=
        mul_nonneg hs (by norm_num [microsecondsPerSecond])
      by_cases hS : t.status = .running
      · by_cases hle : t.remaining - s * microsecondsPerSecond ≤ 0
        · simp only [Timer.tick, hS, ne_eq, not_true_eq_false, if_false,
            hle, if_true]
          exact ⟨ihd, ihe, le_refl 0, by linarith⟩
        · simp only [Timer.tick, hS, ne_eq, not_true_eq_false, if_false,
            hle, if_false]
          exact ⟨ihd, ihe, by linarith [not_le.mp hle], by linarith⟩
      · simp only [Timer.tick, hS, ne_eq, not_false_eq_true, if_true]
        exact ⟨ihd, ihe, ihr0, ihr1⟩
    | reset t e h ih =>
      obtain ⟨ihd, _, _, _⟩ := ih
      rw [(reset_fields t).1, (reset_fields t).2]
      exact ⟨ihd, le_refl 0, by linarith, by linarith⟩
    | add_time t e x h ih =>
      obtain ⟨ihd, ihe, ihr0, ihr1⟩ := ih
      have hmax0 : (0 : ℤ) ≤ max x 0 := le_max_right x 0
      have hmaxx : x ≤ max x 0 := le_max_left x 0
      by_cases hx : x ≤ 0
      · simp only [Timer.add_time, hx, if_true]
        exact ⟨ihd, by linarith, ihr0, by linarith⟩
      · simp only [Timer.add_time, hx, if_false]
        exact ⟨ihd, by linarith, by linarith, by linarith⟩

/-- C5 counterexample: from the reachable RUNNING ten-second state with no
extra time added, the public `tick` with the negative argument −5 raises
`remaining` to 15 seconds, above the claimed bound
`duration + (sum of added extras)` = 10 seconds: `tick` with a negative
argument does not preserve the upper bound. -/
theorem C5_counterexample :
    Reach exRunning10 0 ∧
    (Timer.tick exRunning10 (-5)).1.remaining = 15000000 ∧
    ¬((Timer.tick exRunning10 (-5)).1.remaining ≤
        (Timer.tick exRunning10 (-5)).1.duration + 0) := by
  refine ⟨?_, by decide, by decide⟩
  exact Reach.start exIdle10 0 0
    (Reach.create [] [] 10000000 exIdle10 (by decide))

/-- Evaluation of C5 on explicit inputs: construction at duration −1 fails,
and the invariants hold at the reachable RUNNING ten-second state. -/
theorem C5_invariants_witness :
    Timer.make [] [] (-1) = .error "duration must be > 0" ∧
    (0 < exRunning10.duration ∧ 0 ≤ (0 : ℤ) ∧ 0 ≤ exRunning10.remaining ∧
      exRunning10.remaining ≤ exRunning10.duration + 0) :=
  ⟨C5_invariants.1 [] [] (-1) (by decide),
   C5_invariants.2 exRunning10 0
     (Reach.start exIdle10 0 0
       (Reach.create [] [] 10000000 exIdle10 (by decide)))⟩

/-! Association-list lemmas for the catalog. -/

theorem getAssoc_removeAssoc {α : Type} (l : List (String × α))
    (name : String) : getAssoc (removeAssoc l name) name = none := by
  induction l with
  | nil => rfl
  | cons p l ih =>
    by_cases hp : p.1 = name
    · simpa [removeAssoc, List.filter_cons, hp] using ih
    · simp only [removeAssoc, getAssoc, List.filter_cons] at ih ⊢
      rw [if_pos (by simpa using hp),
        List.find?_cons_of_neg _ (by simpa using hp)]
      exact ih

theorem getAssoc_append_right {α : Type} (l : List (String × α))
    (name : String) (v : α) (h : getAssoc l name = none) :
    getAssoc (l ++ [(name, v)]) name = some v := by
  induction l with
  | nil => simp [getAssoc]
  | cons p l ih =>
    simp only [getAssoc, List.cons_append] at h ⊢
    by_cases hp : p.1 = name
    · rw [List.find?_cons_of_pos _ (by simpa using hp)] at h
      simp at h
    · rw [List.find?_cons_of_neg _ (by simpa using hp)] at h ⊢
      exact ih h

/-! C1: catalog removal semantics. -/

/-- C1: `remove(name)` (modelled from the spec, its implementation being
absent from the sources) fails with a still-active conflict error whenever
the named Timer's status is RUNNING or PAUSED, and succeeds — deleting the
entry — when the Timer is IDLE, FINISHED or STOPPED. -/
theorem C1_remove_semantics (s : TimerService) (name : String) (t : Timer)
    (h : s.get_timer name = some t) :
    (t.status = .running ∨ t.status = .paused →
      TimerService.remove_timer s name =
        .error (.conflict ("Timer " ++ name ++ " is still active"))) ∧
    (t.status = .idle ∨ t.status = .finished ∨ t.status = .stopped →
      ∃ s', TimerService.remove_timer s name = .ok s' ∧
        s'.get_timer name = none) := by
  constructor
  · intro hS
    simp [TimerService.remove_timer, h, hS]
  · intro hS
    have hne : ¬(t.status = .running ∨ t.status = .paused) := by
      rcases hS with h1 | h1 | h1 <;> simp [h1]
    refine ⟨{ s with timers := removeAssoc s.timers name,
                     threads := removeAssoc s.threads name,
                     stopEvents := removeAssoc s.stopEvents name }, ?_, ?_⟩
    · simp [TimerService.remove_timer, h, hne]
    · simpa [TimerService.get_timer] using getAssoc_removeAssoc s.timers name

/-- The one-entry catalog right after `create_timer("t", 10s)` followed by
`start_timer("t")`. -/
def svcRunning : TimerService :=
  { timers := [("t", exRunning10)], threads := [("t", true)],
    stopEvents := [("t", false)] }

/-- The catalog `svcRunning` right after `stop_timer("t")`. -/
def svcStopped : TimerService :=
  { timers := [("t", exStopped10)], threads := [("t", false)],
    stopEvents := [("t", true)] }

/-- Evaluation of C1 on the spec's scenario: `create` then `start` produce
`svcRunning`, where `remove` fails with the still-active conflict; `stop`
produces `svcStopped`, where `remove` succeeds and deletes the entry. -/
theorem C1_remove_semantics_witness :
    TimerService.create_timer TimerService.empty "t" 10000000 =
      .ok ({ timers := [("t", exIdle10)], threads := [],
             stopEvents := [("t", false)] }, exIdle10) ∧
    TimerService.start_timer
      { timers := [("t", exIdle10)], threads := [],
        stopEvents := [("t", false)] } "t" 0 = .ok svcRunning ∧
    TimerService.stop_timer svcRunning "t" = .ok svcStopped ∧
    TimerService.remove_timer svcRunning "t" =
      .error (.conflict ("Timer " ++ "t" ++ " is still active")) ∧
    (∃ s', TimerService.remove_timer svcStopped "t" = .ok s' ∧
      s'.get_timer "t" = none) :=
  ⟨by decide, by decide, by decide,
   (C1_remove_semantics svcRunning "t" exRunning10 (by decide)).1 (by decide),
   (C1_remove_semantics svcStopped "t" exStopped10 (by decide)).2 (by decide)⟩

/-! C8: catalog error surface. -/

/-- C8 (amended): `create_timer` raises a conflict error if and only if the
name is already registered; with a fresh name it registers and returns a new
IDLE Timer provided the duration is positive, while a non-positive duration
propagates the Timer constructor's validation error and registers nothing;
`get_timer` returns `none` (no error) for an unknown name; and each of
`start_timer`, `stop_timer`, `pause_or_resume_timer`, `reset_timer` and
`add_time` raises a not-found error for a name with no registered Timer. -/
theorem C8_catalog_errors (s : TimerService) (name : String)
    (d x now : ℤ) :
    ((s.get_timer name).isSome →
      ∃ m, TimerService.create_timer s name d = .error (.conflict m)) ∧
    (∀ m, TimerService.create_timer s name d = .error (.conflict m) →
      (s.get_timer name).isSome) ∧
    (s.get_timer name = none → 0 < d →
      ∃ s' t, TimerService.create_timer s name d = .ok (s', t) ∧
        s'.get_timer name = some t ∧ t.status = .idle ∧
        t.duration = d ∧ t.remaining = d) ∧
    (s.get_timer name = none → d ≤ 0 →
      TimerService.create_timer s name d =
        .error (.invalidValue "duration must be > 0")) ∧
    (s.get_timer name = none →
      TimerService.start_timer s name now =
        .error (.notFound ("Timer " ++ name ++ " não existe")) ∧
      TimerService.stop_timer s name =
        .error (.notFound ("Timer " ++ name ++ " não existe")) ∧
      TimerService.pause_or_resume_timer s name now =
        .error (.notFound ("Timer " ++ name ++ " não existe")) ∧
      TimerService.reset_timer s name =
        .error (.notFound ("Timer " ++ name ++ " não existe")) ∧
      TimerService.add_time s name x =
        .error (.notFound ("Timer " ++ name ++ " não existe"))) := by
  refine ⟨fun hreg => ?_, fun m hm => ?_, fun hnone hd => ?_,
    fun hnone hd => ?_, fun hnone => ?_⟩
  · refine ⟨"Timer " ++ name ++ " já existe", ?_⟩
    simp [TimerService.create_timer, hreg]
  · by_cases hreg : (s.get_timer name).isSome
    · exact hreg
    · exfalso
      simp [TimerService.create_timer, hreg] at hm
      cases hmk : Timer.make [] [] d with
      | error e => rw [hmk] at hm; simp at hm
      | ok t0 => rw [hmk] at hm; simp at hm
  · have hmk : Timer.make [] [] d =
        .ok { duration := d, status := .idle, onStart := [], onEnd := [],
              remaining := d, threadAlive := false, stopEventSet := false,
              lastUpdateMonotonic := 0 } := by
      simp [Timer.make, Timer.validate_positive, not_le.mpr hd]
    refine
      ⟨{ s with
           timers := s.timers ++
             [(name,
               { duration := d, status := .idle, onStart := [], onEnd := [],
                 remaining := d, threadAlive := false, stopEventSet := false,
                 lastUpdateMonotonic := 0 })],
           stopEvents := setAssoc s.stopEvents name false },
       { duration := d, status := .idle, onStart := [], onEnd := [],
         remaining := d, threadAlive := false, stopEventSet := false,
         lastUpdateMonotonic := 0 }, ?_, ?_, rfl, rfl, rfl⟩
    · simp [TimerService.create_timer, hnone, hmk]
    · exact getAssoc_append_right s.timers name _ hnone
  · simp [TimerService.create_timer, hnone, Timer.make,
      Timer.validate_positive, hd]
  · exact ⟨by simp [TimerService.start_timer, hnone],
      by simp [TimerService.stop_timer, hnone],
      by simp [TimerService.pause_or_resume_timer, hnone],
      by simp [TimerService.reset_timer, hnone],
      by simp [TimerService.add_time, hnone]⟩

/-- C8 counterexample: with the fresh name "t" and the non-positive duration
0, `create_timer` does not register and return a new Timer — it raises the
propagated construction error (which is not the name conflict) and the
catalog stays empty. -/
theorem C8_counterexample :
    TimerService.get_timer TimerService.empty "t" = none ∧
    TimerService.create_timer TimerService.empty "t" 0 =
      .error (.invalidValue "duration must be > 0") := by
  exact ⟨rfl, by decide⟩

/-- Evaluation of C8 on explicit inputs: on the empty catalog, creating "t"
with duration 10s registers it, and every named operation on the missing name
"u" raises the not-found error; on `svcRunning`, creating "t" again raises a
conflict. -/
theorem C8_catalog_errors_witness :
    (∃ s' t, TimerService.create_timer TimerService.empty "t" 10000000 =
        .ok (s', t) ∧ s'.get_timer "t" = some t ∧ t.status = .idle ∧
        t.duration = 10000000 ∧ t.remaining = 10000000) ∧
    (TimerService.start_timer TimerService.empty "u" 0 =
        .error (.notFound ("Timer " ++ "u" ++ " não existe")) ∧
      TimerService.stop_timer TimerService.empty "u" =
        .error (.notFound ("Timer " ++ "u" ++ " não existe")) ∧
      TimerService.pause_or_resume_timer TimerService.empty "u" 0 =
        .error (.notFound ("Timer " ++ "u" ++ " não existe")) ∧
      TimerService.reset_timer TimerService.empty "u" =
        .error (.notFound ("Timer " ++ "u" ++ " não existe")) ∧
      TimerService.add_time TimerService.empty "u" 5 =
        .error (.notFound ("Timer " ++ "u" ++ " não existe"))) ∧
    (∃ m, TimerService.create_timer svcRunning "t" 10000000 =
        .error (.conflict m)) :=
  ⟨(C8_catalog_errors TimerService.empty "t" 10000000 5 0).2.2.1 rfl
     (by decide),
   (C8_catalog_errors TimerService.empty "u" 10000000 5 0).2.2.2.2 rfl,
   (C8_catalog_errors svcRunning "t" 10000000 5 0).1 (by decide)⟩

end FreeTimer
